import Mathlib

/-
Verification of the battery-cell simulation core of src/Cell_Status.py.

The two functions under study are get_cell_data (the cell constructor)
and process_task_on_cell (the per-task state transition).  Python floats
are modelled as exact rationals; Python round(x, n), which rounds half
to even, is modelled by rnd below.  Each call of process_task_on_cell
draws exactly one value from random.uniform in the branch it takes; that
draw is passed explicitly as the argument r, and the uniform range of
the taken branch appears as a hypothesis on r in the theorems.  The
wall-clock duration also returned by the Python function is a pure
observability metric measured with time.perf_counter and plays no role
in the state transition.
-/

/-- Round a rational to the nearest integer, ties to even, as the Python
built-in round does on exact values. -/
def rnd (x : ℚ) : ℤ :=
  if x - (⌊x⌋ : ℚ) < 1/2 then ⌊x⌋
  else if 1/2 < x - (⌊x⌋ : ℚ) then ⌊x⌋ + 1
  else if ⌊x⌋ % 2 = 0 then ⌊x⌋ else ⌊x⌋ + 1

/-- Python round(x, 2). -/
def round2 (x : ℚ) : ℚ := (rnd (x * 100) : ℚ) / 100

/-- Python round(x, 1). -/
def round1 (x : ℚ) : ℚ := (rnd (x * 10) : ℚ) / 10

/-- The cell-state dictionary built by get_cell_data and updated in place
by process_task_on_cell. -/
structure Cell where
  type : String
  voltage : ℚ
  current : ℚ
  temp : ℚ
  capacity : ℚ
  min_voltage : ℚ
  max_voltage : ℚ
  deriving DecidableEq, Repr

/-- Embedding of get_cell_data (src/Cell_Status.py lines 24-36).  The
draw random.uniform(25, 40) is passed explicitly as t. -/
def get_cell_data (cell_type : String) (voltage current : ℚ) (t : ℚ) : Cell :=
  let b : ℚ × ℚ := if cell_type = "LFP" then (28/10, 36/10) else (32/10, 40/10)
  { type := cell_type
    voltage := voltage
    current := current
    temp := round1 t
    capacity := round2 (voltage * |current|)
    min_voltage := b.1
    max_voltage := b.2 }

/-- Embedding of process_task_on_cell (src/Cell_Status.py lines 39-60).
The one random.uniform draw made in the taken branch is passed
explicitly as r; the returned wall-clock duration is dropped. -/
def process_task_on_cell (task : String) (cell : Cell)
    (user_voltage user_current r : ℚ) : Cell :=
  if task = "CHARGE" then
    let c := |user_current|
    let v := min cell.max_voltage (user_voltage + 2/10)
    { cell with current := c, voltage := v,
                capacity := round2 (v * c),
                temp := round2 (cell.temp + r) }
  else if task = "DISCHARGE" then
    let c := -|user_current|
    let v := max cell.min_voltage (user_voltage - 1/10)
    { cell with current := c, voltage := v,
                capacity := round2 (v * |c|),
                temp := round2 (cell.temp + r) }
  else if task = "IDLE" then
    { cell with current := 0,
                temp := max 20 (round2 (cell.temp - r)) }
  else if task = "OPTIMIZING" then
    { cell with voltage := user_voltage, current := user_current,
                capacity := round2 (user_voltage * |user_current|),
                temp := round2 (cell.temp + r) }
  else
    cell

/-- A rational is representable with at most two decimal places. -/
def hasTwoDecimals (x : ℚ) : Prop := (x * 100).den = 1

instance (x : ℚ) : Decidable (hasTwoDecimals x) :=
  inferInstanceAs (Decidable ((x * 100).den = 1))

/-- A concrete LFP cell used in counterexamples and witnesses. -/
def cellLFP : Cell :=
  { type := "LFP", voltage := 3, current := 1, temp := 30,
    capacity := 3, min_voltage := 28/10, max_voltage := 36/10 }

-- Basic bounds for the tie-to-even rounding.

theorem rnd_le (x : ℚ) : (rnd x : ℚ) ≤ x + 1/2 := by
  unfold rnd
  have h1 : ((⌊x⌋ : ℤ) : ℚ) ≤ x := Int.floor_le x
  have h2 : x < (⌊x⌋ : ℚ) + 1 := Int.lt_floor_add_one x
  split_ifs with hlt hgt hev
  · linarith
  · push_cast; linarith
  · linarith
  · push_cast
    push_neg at hlt hgt
    have : x - (⌊x⌋ : ℚ) = 1/2 := le_antisymm hgt hlt
    linarith

theorem le_rnd (x : ℚ) : x - 1/2 ≤ (rnd x : ℚ) := by
  unfold rnd
  have h1 : ((⌊x⌋ : ℤ) : ℚ) ≤ x := Int.floor_le x
  have h2 : x < (⌊x⌋ : ℚ) + 1 := Int.lt_floor_add_one x
  split_ifs with hlt hgt hev
  · linarith
  · push_cast; linarith
  · push_neg at hlt hgt
    have : x - (⌊x⌋ : ℚ) = 1/2 := le_antisymm hgt hlt
    linarith
  · push_cast; linarith

theorem rnd_le_int (x : ℚ) (n : ℤ) (h : x ≤ (n : ℚ)) : rnd x ≤ n := by
  have h1 : (rnd x : ℚ) ≤ x + 1/2 := rnd_le x
  by_contra hc
  push_neg at hc
  have : ((n + 1 : ℤ) : ℚ) ≤ (rnd x : ℚ) := by exact_mod_cast hc
  push_cast at this
  linarith

theorem int_le_rnd (x : ℚ) (n : ℤ) (h : (n : ℚ) ≤ x) : n ≤ rnd x := by
  have h1 : x - 1/2 ≤ (rnd x : ℚ) := le_rnd x
  by_contra hc
  push_neg at hc
  have : (rnd x : ℚ) ≤ ((n - 1 : ℤ) : ℚ) := by exact_mod_cast Int.le_sub_one_of_lt hc
  push_cast at this
  linarith

theorem round2_le (x : ℚ) : round2 x ≤ x + 1/200 := by
  unfold round2
  have h := rnd_le (x * 100)
  rw [div_le_iff₀ (by norm_num : (0:ℚ) < 100)]
  linarith

theorem le_round2 (x : ℚ) : x - 1/200 ≤ round2 x := by
  unfold round2
  have h := le_rnd (x * 100)
  rw [le_div_iff₀ (by norm_num : (0:ℚ) < 100)]
  linarith

theorem round1_mem (t : ℚ) (h25 : 25 ≤ t) (h40 : t ≤ 40) :
    25 ≤ round1 t ∧ round1 t ≤ 40 := by
  unfold round1
  have hlo : (250 : ℤ) ≤ rnd (t * 10) := by
    apply int_le_rnd
    push_cast
    linarith
  have hhi : rnd (t * 10) ≤ (400 : ℤ) := by
    apply rnd_le_int
    push_cast
    linarith
  constructor
  · rw [le_div_iff₀ (by norm_num : (0:ℚ) < 10)]
    exact_mod_cast hlo
  · rw [div_le_iff₀ (by norm_num : (0:ℚ) < 10)]
    exact_mod_cast hhi

theorem hasTwoDecimals_round2 (x : ℚ) : hasTwoDecimals (round2 x) := by
  unfold hasTwoDecimals round2
  rw [div_mul_cancel₀ _ (by norm_num : (100:ℚ) ≠ 0)]
  exact Rat.den_intCast _

theorem hasTwoDecimals_max (a b : ℚ) (ha : hasTwoDecimals a)
    (hb : hasTwoDecimals b) : hasTwoDecimals (max a b) := by
  rcases le_total a b with h | h
  · rwa [max_eq_right h]
  · rwa [max_eq_left h]

-- Branch lemmas: the four named tasks and the silent fallback.

theorem process_charge (cell : Cell) (uv uc r : ℚ) :
    process_task_on_cell "CHARGE" cell uv uc r =
      { cell with current := |uc|,
                  voltage := min cell.max_voltage (uv + 2/10),
                  capacity := round2 (min cell.max_voltage (uv + 2/10) * |uc|),
                  temp := round2 (cell.temp + r) } := by
  unfold process_task_on_cell
  rw [if_pos rfl]

theorem process_discharge (cell : Cell) (uv uc r : ℚ) :
    process_task_on_cell "DISCHARGE" cell uv uc r =
      { cell with current := -|uc|,
                  voltage := max cell.min_voltage (uv - 1/10),
                  capacity := round2 (max cell.min_voltage (uv - 1/10) * |(-|uc|)|),
                  temp := round2 (cell.temp + r) } := by
  unfold process_task_on_cell
  rw [if_neg (by decide), if_pos rfl]

theorem process_idle (cell : Cell) (uv uc r : ℚ) :
    process_task_on_cell "IDLE" cell uv uc r =
      { cell with current := 0,
                  temp := max 20 (round2 (cell.temp - r)) } := by
  unfold process_task_on_cell
  rw [if_neg (by decide), if_neg (by decide), if_pos rfl]

theorem process_optimizing (cell : Cell) (uv uc r : ℚ) :
    process_task_on_cell "OPTIMIZING" cell uv uc r =
      { cell with voltage := uv, current := uc,
                  capacity := round2 (uv * |uc|),
                  temp := round2 (cell.temp + r) } := by
  unfold process_task_on_cell
  rw [if_neg (by decide), if_neg (by decide), if_neg (by decide), if_pos rfl]

/-- Claim C3: a CHARGE application yields voltage at most max_voltage and
nonnegative current, and a DISCHARGE application yields voltage at least
min_voltage and nonpositive current, for every cell, every setpoint pair
and every temperature draw. -/
theorem C3_charge_discharge_bounds (cell : Cell) (uv uc r : ℚ) :
    (process_task_on_cell "CHARGE" cell uv uc r).voltage ≤ cell.max_voltage ∧
    0 ≤ (process_task_on_cell "CHARGE" cell uv uc r).current ∧
    cell.min_voltage ≤ (process_task_on_cell "DISCHARGE" cell uv uc r).voltage ∧
    (process_task_on_cell "DISCHARGE" cell uv uc r).current ≤ 0 := by
  rw [process_charge, process_discharge]
  exact ⟨min_le_left _ _, abs_nonneg _, le_max_left _ _,
    neg_nonpos.mpr (abs_nonneg _)⟩

/-- Claim C4: an IDLE application leaves voltage and capacity exactly
unchanged, sets the current to 0.0 and yields a temperature of at least
20.0, for every cell, every setpoint pair and every temperature draw. -/
theorem C4_idle_frame (cell : Cell) (uv uc r : ℚ) :
    (process_task_on_cell "IDLE" cell uv uc r).voltage = cell.voltage ∧
    (process_task_on_cell "IDLE" cell uv uc r).capacity = cell.capacity ∧
    (process_task_on_cell "IDLE" cell uv uc r).current = 0 ∧
    20 ≤ (process_task_on_cell "IDLE" cell uv uc r).temp := by
  rw [process_idle]
  exact ⟨rfl, rfl, rfl, le_max_left _ _⟩

/-- Claim C5: an OPTIMIZING application passes both setpoints through
exactly, with no absolute value, no sign change and no clamping to the
chemistry bounds, for every cell and every temperature draw. -/
theorem C5_optimizing_passthrough (cell : Cell) (uv uc r : ℚ) :
    (process_task_on_cell "OPTIMIZING" cell uv uc r).current = uc ∧
    (process_task_on_cell "OPTIMIZING" cell uv uc r).voltage = uv := by
  rw [process_optimizing]
  exact ⟨rfl, rfl⟩

/-- Claim C6: for a task identifier outside CHARGE, DISCHARGE, IDLE and
OPTIMIZING, process_task_on_cell returns the cell unchanged in every
field; being a total Lean function it raises no error, matching the
silent-fallback policy of the Python code. -/
theorem C6_unknown_task_noop (task : String) (cell : Cell) (uv uc r : ℚ)
    (h1 : task ≠ "CHARGE") (h2 : task ≠ "DISCHARGE")
    (h3 : task ≠ "IDLE") (h4 : task ≠ "OPTIMIZING") :
    process_task_on_cell task cell uv uc r = cell := by
  unfold process_task_on_cell
  rw [if_neg h1, if_neg h2, if_neg h3, if_neg h4]

/-- Witness for C6 at the concrete unknown task HOLD. -/
theorem C6_unknown_task_noop_witness :
    ("HOLD" ≠ "CHARGE" ∧ "HOLD" ≠ "DISCHARGE" ∧
     "HOLD" ≠ "IDLE" ∧ "HOLD" ≠ "OPTIMIZING") ∧
    process_task_on_cell "HOLD" cellLFP 3 1 0 = cellLFP :=
  ⟨⟨by decide, by decide, by decide, by decide⟩,
    C6_unknown_task_noop "HOLD" cellLFP 3 1 0
      (by decide) (by decide) (by decide) (by decide)⟩

/-- Claim C9: no transition of process_task_on_cell changes the chemistry
tag, the minimum voltage or the maximum voltage of the cell; this holds
for every task string, in particular for the four named tasks. -/
theorem C9_chemistry_immutable (task : String) (cell : Cell) (uv uc r : ℚ) :
    (process_task_on_cell task cell uv uc r).type = cell.type ∧
    (process_task_on_cell task cell uv uc r).min_voltage = cell.min_voltage ∧
    (process_task_on_cell task cell uv uc r).max_voltage = cell.max_voltage := by
  unfold process_task_on_cell
  split_ifs <;> exact ⟨rfl, rfl, rfl⟩

/-- Claim C1 counterexample: CHARGE clamps only from above, so for the
LFP cell and setpoint voltage 2.5 (inside the widget range 2.5 to 4.4)
the resulting voltage 2.7 is strictly below the chemistry minimum 2.8;
the claimed two-sided invariant fails. -/
theorem C1_counterexample :
    (process_task_on_cell "CHARGE" cellLFP (5/2) 1 (1/2)).voltage <
      cellLFP.min_voltage := by
  rw [process_charge]
  show min cellLFP.max_voltage ((5:ℚ)/2 + 2/10) < cellLFP.min_voltage
  norm_num [min_def, cellLFP]

/-- Claim C1 (amended): for a cell with ordered bounds and a setpoint
voltage satisfying min_voltage - 0.2 <= setpoint and
setpoint <= max_voltage + 0.1, both a CHARGE and a DISCHARGE application
leave the voltage inside [min_voltage, max_voltage]; the clamp in each
transition enforces only the near bound, so the far bound needs these
setpoint hypotheses. -/
theorem C1_amended_invariant (cell : Cell) (uv uc r : ℚ)
    (hord : cell.min_voltage ≤ cell.max_voltage)
    (hlo : cell.min_voltage ≤ uv + 2/10)
    (hhi : uv - 1/10 ≤ cell.max_voltage) :
    (cell.min_voltage ≤ (process_task_on_cell "CHARGE" cell uv uc r).voltage ∧
     (process_task_on_cell "CHARGE" cell uv uc r).voltage ≤ cell.max_voltage) ∧
    (cell.min_voltage ≤ (process_task_on_cell "DISCHARGE" cell uv uc r).voltage ∧
     (process_task_on_cell "DISCHARGE" cell uv uc r).voltage ≤ cell.max_voltage) := by
  rw [process_charge, process_discharge]
  exact ⟨⟨le_min hord hlo, min_le_left _ _⟩,
    ⟨le_max_left _ _, max_le hord hhi⟩⟩

/-- Witness for the amended C1 at the LFP cell with setpoint voltage 3.3. -/
theorem C1_amended_invariant_witness :
    (cellLFP.min_voltage ≤ cellLFP.max_voltage ∧
     cellLFP.min_voltage ≤ 33/10 + 2/10 ∧
     (33:ℚ)/10 - 1/10 ≤ cellLFP.max_voltage) ∧
    ((cellLFP.min_voltage ≤
        (process_task_on_cell "CHARGE" cellLFP (33/10) 1 (1/2)).voltage ∧
      (process_task_on_cell "CHARGE" cellLFP (33/10) 1 (1/2)).voltage ≤
        cellLFP.max_voltage) ∧
     (cellLFP.min_voltage ≤
        (process_task_on_cell "DISCHARGE" cellLFP (33/10) 1 (1/2)).voltage ∧
      (process_task_on_cell "DISCHARGE" cellLFP (33/10) 1 (1/2)).voltage ≤
        cellLFP.max_voltage)) :=
  ⟨⟨by norm_num [cellLFP], by norm_num [cellLFP], by norm_num [cellLFP]⟩,
   C1_amended_invariant cellLFP (33/10) 1 (1/2)
     (by norm_num [cellLFP]) (by norm_num [cellLFP]) (by norm_num [cellLFP])⟩

/-- Claim C2 counterexample: an OPTIMIZING application with setpoint
voltage 3.123 yields the voltage 3.123 unrounded, which has three decimal
places, so the voltage results of the transitions are not rounded to 2
decimal places. -/
theorem rnd_intCast (n : ℤ) : rnd (n : ℚ) = n := by
  unfold rnd
  rw [Int.floor_intCast]
  norm_num

theorem round2_hundredths (k : ℤ) : round2 ((k : ℚ)/100) = (k : ℚ)/100 := by
  unfold round2
  rw [div_mul_cancel₀ _ (by norm_num : (100:ℚ) ≠ 0), rnd_intCast]

theorem hasTwoDecimals_twenty : hasTwoDecimals 20 := by
  unfold hasTwoDecimals
  have h : (20:ℚ) * 100 = ((2000:ℤ) : ℚ) := by norm_num
  rw [h]
  exact Rat.den_intCast _

theorem C2_counterexample :
    ¬ hasTwoDecimals
        ((process_task_on_cell "OPTIMIZING" cellLFP (3123/1000) 1 0).voltage) := by
  rw [process_optimizing]
  show ¬ hasTwoDecimals ((3123:ℚ)/1000)
  unfold hasTwoDecimals
  intro h
  rw [Rat.den_eq_one_iff] at h
  have h10 : ((3123:ℚ)/1000 * 100) * 10 = 3123 := by norm_num
  rw [← h] at h10
  have h2 : (((3123:ℚ)/1000 * 100).num * 10 : ℤ) = (3123 : ℤ) := by exact_mod_cast h10
  omega

/-- Claim C2 (amended): in process_task_on_cell the capacity results of
CHARGE, DISCHARGE and OPTIMIZING and the temperature results of all four
transitions, temperature during CHARGE and DISCHARGE included, are
rounded to 2 decimal places; the voltage and current results are passed
through without rounding. -/
theorem C2_amended_rounding (cell : Cell) (uv uc r : ℚ) :
    hasTwoDecimals ((process_task_on_cell "CHARGE" cell uv uc r).capacity) ∧
    hasTwoDecimals ((process_task_on_cell "CHARGE" cell uv uc r).temp) ∧
    hasTwoDecimals ((process_task_on_cell "DISCHARGE" cell uv uc r).capacity) ∧
    hasTwoDecimals ((process_task_on_cell "DISCHARGE" cell uv uc r).temp) ∧
    hasTwoDecimals ((process_task_on_cell "IDLE" cell uv uc r).temp) ∧
    hasTwoDecimals ((process_task_on_cell "OPTIMIZING" cell uv uc r).capacity) ∧
    hasTwoDecimals ((process_task_on_cell "OPTIMIZING" cell uv uc r).temp) := by
  rw [process_charge, process_discharge, process_idle, process_optimizing]
  exact ⟨hasTwoDecimals_round2 _, hasTwoDecimals_round2 _, hasTwoDecimals_round2 _,
    hasTwoDecimals_round2 _,
    hasTwoDecimals_max 20 _ hasTwoDecimals_twenty (hasTwoDecimals_round2 _),
    hasTwoDecimals_round2 _, hasTwoDecimals_round2 _⟩

/-- Claim C8 counterexample: the IDLE transition raises the temperature
of a cell sitting at 19 degrees up to the 20.0 floor, so temperature is
not non-increasing under IDLE for every cell; cells below 20 degrees are
reachable because the OPTIMIZING draw may be negative. -/
theorem C8_counterexample :
    ¬ ((process_task_on_cell "IDLE" { cellLFP with temp := 19 } 3 1 (1/10)).temp ≤
        ({ cellLFP with temp := 19 } : Cell).temp) := by
  rw [process_idle]
  show ¬ (max 20 (round2 ((19:ℚ) - 1/10)) ≤ (19:ℚ))
  have h1 : (19:ℚ) - 1/10 = ((1890:ℤ) : ℚ)/100 := by norm_num
  rw [h1, round2_hundredths, max_eq_left (by norm_num)]
  norm_num

/-- Claim C8 (amended): for a cell at 20 degrees or more and an IDLE draw
in [0.1, 0.3], IDLE never increases the temperature, and a cell at
exactly 20.0 stays at exactly 20.0, so 20.0 is a fixed point of the IDLE
temperature update. -/
theorem C8_amended_idle_monotone (cell : Cell) (uv uc r : ℚ)
    (h20 : 20 ≤ cell.temp) (hr1 : 1/10 ≤ r) (_hr2 : r ≤ 3/10) :
    (process_task_on_cell "IDLE" cell uv uc r).temp ≤ cell.temp ∧
    (process_task_on_cell "IDLE" { cell with temp := 20 } uv uc r).temp = 20 := by
  rw [process_idle, process_idle]
  constructor
  · apply max_le h20
    have h := round2_le (cell.temp - r)
    linarith
  · show max 20 (round2 ((20:ℚ) - r)) = 20
    have h := round2_le ((20:ℚ) - r)
    rw [max_eq_left]
    linarith

/-- Witness for the amended C8 at the LFP cell (30 degrees) and draw 0.2. -/
theorem C8_amended_idle_monotone_witness :
    ((20:ℚ) ≤ cellLFP.temp ∧ (1:ℚ)/10 ≤ 2/10 ∧ (2:ℚ)/10 ≤ 3/10) ∧
    ((process_task_on_cell "IDLE" cellLFP 3 1 (2/10)).temp ≤ cellLFP.temp ∧
     (process_task_on_cell "IDLE" { cellLFP with temp := 20 } 3 1 (2/10)).temp = 20) :=
  ⟨⟨by norm_num [cellLFP], by norm_num, by norm_num⟩,
   C8_amended_idle_monotone cellLFP 3 1 (2/10)
     (by norm_num [cellLFP]) (by norm_num) (by norm_num)⟩

/-- Claim C7: for both chemistries, get_cell_data succeeds for every
initial voltage and current, fixes the voltage bounds to the
per-chemistry table (LFP 2.8 to 3.6, NMC 3.2 to 4.0), hence ordered
bounds, yields a temperature in [25.0, 40.0] whenever the uniform draw
lies in [25, 40], and sets the capacity to round2 of voltage times the
absolute current. -/
theorem C7_create_cell (v i t : ℚ) (h25 : 25 ≤ t) (h40 : t ≤ 40) :
    ((get_cell_data "LFP" v i t).min_voltage = 28/10 ∧
     (get_cell_data "LFP" v i t).max_voltage = 36/10 ∧
     (get_cell_data "NMC" v i t).min_voltage = 32/10 ∧
     (get_cell_data "NMC" v i t).max_voltage = 4) ∧
    ((get_cell_data "LFP" v i t).min_voltage <
       (get_cell_data "LFP" v i t).max_voltage ∧
     (get_cell_data "NMC" v i t).min_voltage <
       (get_cell_data "NMC" v i t).max_voltage) ∧
    (25 ≤ (get_cell_data "LFP" v i t).temp ∧
     (get_cell_data "LFP" v i t).temp ≤ 40 ∧
     25 ≤ (get_cell_data "NMC" v i t).temp ∧
     (get_cell_data "NMC" v i t).temp ≤ 40) ∧
    ((get_cell_data "LFP" v i t).capacity = round2 (v * |i|) ∧
     (get_cell_data "NMC" v i t).capacity = round2 (v * |i|)) := by
  obtain ⟨ha, hb⟩ := round1_mem t h25 h40
  refine ⟨⟨rfl, rfl, rfl, ?_⟩, ⟨?_, ?_⟩, ⟨ha, hb, ha, hb⟩, rfl, rfl⟩
  · show (40:ℚ)/10 = 4
    norm_num
  · show (28:ℚ)/10 < 36/10
    norm_num
  · show (32:ℚ)/10 < 40/10
    norm_num

/-- Witness for C7 at voltage 3, current 1 and temperature draw 30. -/
theorem C7_create_cell_witness :
    (25:ℚ) ≤ 30 ∧ (30:ℚ) ≤ 40 ∧
    (25 ≤ (get_cell_data "LFP" 3 1 30).temp ∧
     (get_cell_data "LFP" 3 1 30).temp ≤ 40 ∧
     25 ≤ (get_cell_data "NMC" 3 1 30).temp ∧
     (get_cell_data "NMC" 3 1 30).temp ≤ 40) :=
  ⟨by norm_num, by norm_num,
   (C7_create_cell 3 1 30 (by norm_num) (by norm_num)).2.2.1⟩

/-- Claim C10: for every chemistry string other than LFP, NMC included or
not, get_cell_data silently assigns the NMC bounds 3.2 and 4.0, and the
initial temperature is round1 of the draw, hence an integer multiple of
0.1 that stays in [25.0, 40.0] when the draw lies in [25, 40]; together
these place it in the finite grid from 25.0 to 40.0. -/
theorem C10_non_lfp_defaults (ch : String) (v i t : ℚ) (h : ch ≠ "LFP")
    (h25 : 25 ≤ t) (h40 : t ≤ 40) :
    (get_cell_data ch v i t).min_voltage = 32/10 ∧
    (get_cell_data ch v i t).max_voltage = 4 ∧
    ((get_cell_data ch v i t).temp * 10).den = 1 ∧
    25 ≤ (get_cell_data ch v i t).temp ∧
    (get_cell_data ch v i t).temp ≤ 40 := by
  obtain ⟨ha, hb⟩ := round1_mem t h25 h40
  have hden : (round1 t * 10).den = 1 := by
    unfold round1
    rw [div_mul_cancel₀ _ (by norm_num : (10:ℚ) ≠ 0)]
    exact Rat.den_intCast _
  unfold get_cell_data
  rw [if_neg h]
  exact ⟨rfl, show (40:ℚ)/10 = 4 by norm_num, hden, ha, hb⟩

/-- Witness for C10 at the unknown chemistry ABC and temperature draw 30. -/
theorem C10_non_lfp_defaults_witness :
    ("ABC" ≠ "LFP" ∧ (25:ℚ) ≤ 30 ∧ (30:ℚ) ≤ 40) ∧
    ((get_cell_data "ABC" 3 1 30).min_voltage = 32/10 ∧
     (get_cell_data "ABC" 3 1 30).max_voltage = 4 ∧
     ((get_cell_data "ABC" 3 1 30).temp * 10).den = 1 ∧
     25 ≤ (get_cell_data "ABC" 3 1 30).temp ∧
     (get_cell_data "ABC" 3 1 30).temp ≤ 40) :=
  ⟨⟨by decide, by norm_num, by norm_num⟩,
   C10_non_lfp_defaults "ABC" 3 1 30 (by decide) (by norm_num) (by norm_num)⟩
